import Mathlib

/-!
Verification of the SecTriageBot triage repository: the decision engine
(`apply_decision_logic` in `validate_tickets.py` and `fix_tickets.py`),
the consistency validator (`validate_dataset`), and the comment
synthesizers (`generate_comment` in `fix_tickets.py`,
`generate_ideal_comment` / `generate_reasoning` in `generate_tickets.py`),
shallowly embedded as executable Lean definitions.
-/

/-- Substring test on lists of characters: `listContainsSub needle hay` is
`true` iff `needle` occurs contiguously inside `hay`.  Models the Python
expression `needle in hay` on strings. -/
def listContainsSub (needle : List Char) : List Char → Bool
  | [] => needle.isEmpty
  | c :: rest => needle.isPrefixOf (c :: rest) || listContainsSub needle rest

/-- `strContains hay needle` models the Python membership test
`needle in hay` for strings. -/
def strContains (hay needle : String) : Bool :=
  listContainsSub needle.data hay.data

/-- ASCII lower-casing of a string, character by character.  Models the
Python method `s.lower()` on the ASCII label strings the validator
compares. -/
def strLower (s : String) : String :=
  ⟨s.data.map Char.toLower⟩

/-- The structured investigation facts of one ticket: the `data` object of
a ticket record, flattened.  `repoType`, `exposure`, `criticality` come
from `repo_details`; `detectionSource`, `commitAge` from `detection`;
`usageEvidence`, `rotationStatus`, `impactRadius`,
`similarPastIncidents` from `investigation`. -/
structure FactBundle where
  category : String
  repoType : String
  exposure : String
  criticality : String
  detectionSource : String
  commitAge : String
  usageEvidence : String
  rotationStatus : String
  impactRadius : String
  similarPastIncidents : String
deriving DecidableEq, Repr

namespace ValidateTickets

/-- `apply_decision_logic` from `validate_tickets.py` (lines 19-64). -/
def apply_decision_logic (data : FactBundle) : String :=
  let rotation_status := data.rotationStatus
  let repo_type := data.repoType
  let usage_evidence := data.usageEvidence
  let criticality := data.criticality
  let exposure := data.exposure
  let past_incidents := data.similarPastIncidents
  if (["Revoked", "Already Rotated"].contains rotation_status) then "Mitigated"
  else if rotation_status == "Invalid" then "False Positive"
  else if strContains repo_type "Deprecated" || strContains repo_type "Archived" then "Suppressed"
  else
    let is_active_usage := strContains usage_evidence "Active usage"
    let is_high_criticality := strContains criticality "P0" || strContains criticality "P1"
    let is_public := strContains exposure "Public"
    let is_test_qa := repo_type == "Test/QA Suite"
    if is_test_qa && (past_incidents == "Frequent False Positives in this file") && !is_active_usage then
      "False Positive"
    else if (rotation_status == "Active/Valid") && is_active_usage then "Confirmed"
    else if (rotation_status == "Active/Valid") && is_high_criticality && is_public then "Confirmed"
    else if rotation_status == "Active/Valid" then "Open"
    else "Open"

end ValidateTickets

namespace FixTickets

/-- `apply_decision_logic` from `fix_tickets.py` (lines 11-54). -/
def apply_decision_logic (data : FactBundle) : String :=
  let rotation_status := data.rotationStatus
  let repo_type := data.repoType
  let usage_evidence := data.usageEvidence
  let criticality := data.criticality
  let exposure := data.exposure
  let past_incidents := data.similarPastIncidents
  if (["Revoked", "Already Rotated"].contains rotation_status) then "Mitigated"
  else if rotation_status == "Invalid" then "False Positive"
  else if strContains repo_type "Deprecated" || strContains repo_type "Archived" then "Suppressed"
  else
    let is_active_usage := strContains usage_evidence "Active usage"
    let is_high_criticality := strContains criticality "P0" || strContains criticality "P1"
    let is_public := strContains exposure "Public"
    let is_test_qa := repo_type == "Test/QA Suite"
    if is_test_qa && (past_incidents == "Frequent False Positives in this file") && !is_active_usage then
      "False Positive"
    else if (rotation_status == "Active/Valid") && is_active_usage then "Confirmed"
    else if (rotation_status == "Active/Valid") && is_high_criticality && is_public then "Confirmed"
    else if rotation_status == "Active/Valid" then "Open"
    else "Open"

end FixTickets

/-- The closed five-label enumeration produced by the engine. -/
def canonicalLabels : List String :=
  ["Mitigated", "False Positive", "Suppressed", "Confirmed", "Open"]

/-- A parsed corpus record: `ticket_id`, the fact bundle (`data`), and the
recorded `label`.  The recorded comment is carried along untouched by the
validator. -/
structure Ticket where
  ticket_id : String
  data : FactBundle
  label : String
  ideal_llm_comment : String
deriving DecidableEq, Repr

/-- One entry of the validator's mismatch list: the dict literal built at
`validate_tickets.py` lines 91-101. -/
structure MismatchEntry where
  line : Nat
  ticket_id : String
  expected : String
  actual : String
  rotation_status : String
  repo_type : String
  usage : String
  criticality : String
  past_incidents : String
deriving DecidableEq, Repr

/-- The accumulator of `validate_dataset`: total, matches, the mismatch
list, and the per-recorded-label `(correct, incorrect)` tallies.  The
`by_label` field models the Python `defaultdict`, with `(0, 0)` as the
default entry. -/
structure ValidationResults where
  total : Nat
  matches' : Nat
  mismatches : List MismatchEntry
  by_label : String → Nat × Nat

/-- The initial accumulator built at `validate_tickets.py` lines 69-74. -/
def initialResults : ValidationResults :=
  { total := 0, matches' := 0, mismatches := [], by_label := fun _ => (0, 0) }

namespace ValidateTickets

/-- The mismatch dict appended at `validate_tickets.py` lines 91-101. -/
def mkMismatch (line_num : Nat) (t : Ticket) (expected actual : String) : MismatchEntry :=
  { line := line_num
    ticket_id := t.ticket_id
    expected := expected
    actual := actual
    rotation_status := t.data.rotationStatus
    repo_type := t.data.repoType
    usage := t.data.usageEvidence
    criticality := t.data.criticality
    past_incidents := t.data.similarPastIncidents }

/-- The body of the per-ticket loop of `validate_dataset`
(`validate_tickets.py` lines 81-102): count the ticket, recompute the
label, compare case-insensitively, and update the counters or append a
mismatch entry. -/
def validateStep (r : ValidationResults) (line_num : Nat) (t : Ticket) : ValidationResults :=
  let r1 := { r with total := r.total + 1 }
  let expected_label := apply_decision_logic t.data
  let actual_label := t.label
  if strLower expected_label == strLower actual_label then
    { r1 with
      matches' := r1.matches' + 1
      by_label := fun l =>
        if l == actual_label then ((r1.by_label l).1 + 1, (r1.by_label l).2)
        else r1.by_label l }
  else
    { r1 with
      mismatches := r1.mismatches ++ [mkMismatch line_num t expected_label actual_label]
      by_label := fun l =>
        if l == actual_label then ((r1.by_label l).1, (r1.by_label l).2 + 1)
        else r1.by_label l }

/-- The fold of `validateStep` over the corpus, threading the 1-based
line number of `enumerate(f, 1)`. -/
def validateGo (r : ValidationResults) (n : Nat) : List Ticket → ValidationResults
  | [] => r
  | t :: ts => validateGo (validateStep r n t) (n + 1) ts

/-- `validate_dataset` from `validate_tickets.py` (lines 67-104), on an
already-parsed corpus: each element of the list is one non-blank line of
the JSONL file, numbered from 1. -/
def validate_dataset (corpus : List Ticket) : ValidationResults :=
  validateGo initialResults 1 corpus

end ValidateTickets

/-- Pair each list element with its position, counting from `n`: the shape
of Python's `enumerate(f, n)`. -/
def enumFrom {α : Type} (n : Nat) : List α → List (Nat × α)
  | [] => []
  | x :: xs => (n, x) :: enumFrom (n + 1) xs

namespace FixTickets

/-- `generate_comment` from `fix_tickets.py` (lines 57-123).  Python
list-building with conditional `append` is rendered as concatenation of
conditional singleton lists; `" ".join(reasons)` is
`String.intercalate " " reasons`. -/
def generate_comment (data : FactBundle) (label : String) : String :=
  let category := data.category
  let repo_type := data.repoType
  let usage := data.usageEvidence
  let status := data.rotationStatus
  let criticality := data.criticality
  let detection := data.detectionSource
  let exposure := data.exposure
  let impact := data.impactRadius
  let past_incidents := data.similarPastIncidents
  let headline := "Automated analysis: " ++ category ++ " detected in " ++ repo_type ++ "."
  let context := "\nContext:\n- Usage: " ++ usage ++ "\n- Status: " ++ status ++
    "\n- Criticality: " ++ criticality ++ "\n- Detection Source: " ++ detection
  let recommendation := "\nRecommendation: Mark as " ++ label ++ "."
  let reasoning :=
    if label == "Mitigated" then
      if status == "Revoked" then
        "\nReasoning: Credential has been revoked and is no longer valid. No further action required. Verify rotation in key management system."
      else
        "\nReasoning: Credential has already been rotated; new key is in place. No further action required. Verify rotation in key management system."
    else if label == "False Positive" then
      let reasons :=
        (if status == "Invalid" then
          ["Credential validation failed - not a valid secret format."] else []) ++
        (if past_incidents == "Frequent False Positives in this file" then
          ["File has history of false positive detections."] else []) ++
        (if strContains repo_type "Test" || strContains repo_type "QA" then
          ["Test fixture or example data - not a real credential."] else []) ++
        ["No remediation required. Consider adding to allowlist."]
      "\nReasoning: " ++ String.intercalate " " reasons
    else if label == "Suppressed" then
      let reasons :=
        ["Repository is archived/deprecated with no active deployments."] ++
        (if strContains usage "No usage found" then
          ["No usage detected in 90+ days."] else []) ++
        ["Risk accepted per security policy. Document and close."]
      "\nReasoning: " ++ String.intercalate " " reasons
    else if label == "Confirmed" then
      let reasons :=
        ["High-confidence active threat detected."] ++
        (if strContains usage "Active usage" then
          ["Recent usage logs confirm the credential is actively being used."] else []) ++
        (if strContains exposure "Public" then
          ["Public exposure increases risk of credential harvesting."] else []) ++
        (if strContains criticality "P0" then
          ["Repository handles customer data - immediate rotation required."] else []) ++
        ["Impact radius: " ++ impact ++ ". Initiate incident response protocol."]
      "\nReasoning: " ++ String.intercalate " " reasons
    else
      let reasons :=
        ["Valid credential requiring remediation.",
         "Credential is still active and has not been rotated."] ++
        (if strContains repo_type "Prod" || strContains repo_type "Monolith" then
          ["Found in " ++ repo_type ++ " - prioritize based on " ++ criticality ++ "."] else []) ++
        ["Assign to repository owner for rotation."]
      "\nReasoning: " ++ String.intercalate " " reasons
  headline ++ context ++ recommendation ++ reasoning

end FixTickets

namespace GenerateTickets

/-- `generate_reasoning` from `generate_tickets.py` (lines 253-308): the
ordered list of justification clauses for a label, joined by single
spaces.  An unknown label falls through every branch and yields the empty
join. -/
def generate_reasoning (data : FactBundle) (label : String) : String :=
  let repo_type := data.repoType
  let exposure := data.exposure
  let criticality := data.criticality
  let usage := data.usageEvidence
  let rotation := data.rotationStatus
  let past_incidents := data.similarPastIncidents
  let impact := data.impactRadius
  let reasons : List String :=
    if label == "Mitigated" then
      (if rotation == "Already Rotated" then
        ["Credential has already been rotated; new key is in place."]
       else if rotation == "Revoked" then
        ["Credential has been revoked and is no longer valid."]
       else []) ++
      ["No further action required. Verify rotation in key management system."]
    else if label == "Confirmed" then
      ["High-confidence active threat detected."] ++
      (if usage == "Active usage in CloudTrail/Logs (Last 1h)" then
        ["Recent usage logs confirm the credential is actively being used."] else []) ++
      (if exposure == "Public (Open Source)" then
        ["Public exposure increases risk of credential harvesting."] else []) ++
      (if criticality == "Critical (P0 - Customer Data)" then
        ["Repository handles customer data - immediate rotation required."] else []) ++
      ["Impact radius: " ++ impact ++ ". Initiate incident response protocol."]
    else if label == "Open" then
      ["Valid credential requiring remediation."] ++
      (if rotation == "Active/Valid" then
        ["Credential is still active and has not been rotated."] else []) ++
      (if repo_type == "Prod Microservice" || repo_type == "Monolith Core" then
        ["Found in " ++ repo_type ++ " - prioritize based on " ++ criticality ++ "."] else []) ++
      ["Assign to repository owner for rotation."]
    else if label == "Suppressed" then
      (if repo_type == "Deprecated/Archived" then
        ["Repository is archived/deprecated with no active deployments."] else []) ++
      (if usage == "No usage found (90d+)" then
        ["No usage detected in 90+ days."] else []) ++
      (if repo_type == "Test/QA Suite" then
        ["Test environment with no production impact."] else []) ++
      ["Risk accepted per security policy. Document and close."]
    else if label == "False Positive" then
      (if rotation == "Invalid" then
        ["Credential validation failed - not a valid secret format."] else []) ++
      (if past_incidents == "Frequent False Positives in this file" then
        ["File has history of false positive detections."] else []) ++
      (if repo_type == "Test/QA Suite" then
        ["Test fixture or example data - not a real credential."] else []) ++
      ["No remediation required. Consider adding to allowlist."]
    else []
  String.intercalate " " reasons

/-- `generate_ideal_comment` from `generate_tickets.py` (lines 311-331):
the four-part comment template, with blank lines between consecutive
sections as in the triple-quoted f-string of the source. -/
def generate_ideal_comment (data : FactBundle) (label : String) : String :=
  let vuln_type := data.category
  let repo_type := data.repoType
  let usage := data.usageEvidence
  let rotation := data.rotationStatus
  let reasoning := generate_reasoning data label
  "Automated analysis: " ++ vuln_type ++ " detected in " ++ repo_type ++ "." ++
  "\n\nContext:\n- Usage: " ++ usage ++ "\n- Status: " ++ rotation ++
  "\n- Criticality: " ++ data.criticality ++
  "\n- Detection Source: " ++ data.detectionSource ++
  "\n\nRecommendation: Mark as " ++ label ++ "." ++
  "\n\nReasoning: " ++ reasoning

end GenerateTickets

/-- Transcribed from the spec, section 4.1: the canonical ordered rule
list, each rule a predicate on the fact bundle paired with the label it
assigns.  Rule 8 is the unconditional fallback. -/
def specRuleList : List ((FactBundle → Bool) × String) :=
  [(fun b => b.rotationStatus == "Revoked" || b.rotationStatus == "Already Rotated",
    "Mitigated"),
   (fun b => b.rotationStatus == "Invalid", "False Positive"),
   (fun b => strContains b.repoType "Deprecated" || strContains b.repoType "Archived",
    "Suppressed"),
   (fun b => b.repoType == "Test/QA Suite" &&
      (b.similarPastIncidents == "Frequent False Positives in this file") &&
      !(strContains b.usageEvidence "Active usage"),
    "False Positive"),
   (fun b => b.rotationStatus == "Active/Valid" && strContains b.usageEvidence "Active usage",
    "Confirmed"),
   (fun b => b.rotationStatus == "Active/Valid" &&
      (strContains b.criticality "P0" || strContains b.criticality "P1") &&
      strContains b.exposure "Public",
    "Confirmed"),
   (fun b => b.rotationStatus == "Active/Valid", "Open"),
   (fun _ => true, "Open")]

/-- First-match-wins evaluation of an ordered rule list: the label of the
first rule whose predicate holds; later rules are never consulted. -/
def firstMatchLabel : List ((FactBundle → Bool) × String) → FactBundle → Option String
  | [], _ => none
  | rule :: rest, b => if rule.1 b then some rule.2 else firstMatchLabel rest b

/-- The Python exception raised by a dict subscript on a missing key:
`KeyError(key)`.  It carries the offending key name and nothing else — in
particular no file line number. -/
inductive PyError where
  | keyError (key : String)
deriving DecidableEq, Repr

/-- Python dict subscript `d[k]`: the value when the key is present,
`KeyError(k)` when it is absent. -/
def getKey {α : Type} (o : Option α) (k : String) : Except PyError α :=
  match o with
  | some v => Except.ok v
  | none => Except.error (PyError.keyError k)

/-- The `repo_details` JSON object as read by `validate_tickets.py`, each
key possibly absent. -/
structure RawRepoDetails where
  type : Option String
  exposure : Option String
  criticality : Option String
deriving DecidableEq, Repr

/-- The `investigation` JSON object as read by `validate_tickets.py`, each
key possibly absent. -/
structure RawInvestigation where
  usage_evidence : Option String
  rotation_status : Option String
  impact_radius : Option String
  similar_past_incidents : Option String
deriving DecidableEq, Repr

/-- The `data` JSON object as read by `validate_tickets.py`, each key
possibly absent. -/
structure RawData where
  repo_details : Option RawRepoDetails
  investigation : Option RawInvestigation
deriving DecidableEq, Repr

/-- One parsed JSON corpus record with possibly missing keys, covering the
fields `validate_dataset` subscripts.  A `none` models an absent key. -/
structure RawTicket where
  ticket_id : Option String
  data : Option RawData
  label : Option String
deriving DecidableEq, Repr

/-- The raw record holding a fully parsed ticket: every key present. -/
def Ticket.toRaw (t : Ticket) : RawTicket :=
  { ticket_id := some t.ticket_id
    data := some
      { repo_details := some
          { type := some t.data.repoType
            exposure := some t.data.exposure
            criticality := some t.data.criticality }
        investigation := some
          { usage_evidence := some t.data.usageEvidence
            rotation_status := some t.data.rotationStatus
            impact_radius := some t.data.impactRadius
            similar_past_incidents := some t.data.similarPastIncidents } }
    label := some t.label }

namespace Raw

/-- `apply_decision_logic` from `validate_tickets.py` with the dict
subscripts of lines 21-26 made explicit: each missing key aborts with the
`KeyError` Python raises, in the order the source reads the fields. -/
def apply_decision_logic (data : RawData) : Except PyError String := do
  let inv ← getKey data.investigation "investigation"
  let rotation_status ← getKey inv.rotation_status "rotation_status"
  let rd ← getKey data.repo_details "repo_details"
  let repo_type ← getKey rd.type "type"
  let usage_evidence ← getKey inv.usage_evidence "usage_evidence"
  let criticality ← getKey rd.criticality "criticality"
  let exposure ← getKey rd.exposure "exposure"
  let past_incidents ← getKey inv.similar_past_incidents "similar_past_incidents"
  pure <|
    if (["Revoked", "Already Rotated"].contains rotation_status) then "Mitigated"
    else if rotation_status == "Invalid" then "False Positive"
    else if strContains repo_type "Deprecated" || strContains repo_type "Archived" then "Suppressed"
    else
      let is_active_usage := strContains usage_evidence "Active usage"
      let is_high_criticality := strContains criticality "P0" || strContains criticality "P1"
      let is_public := strContains exposure "Public"
      let is_test_qa := repo_type == "Test/QA Suite"
      if is_test_qa && (past_incidents == "Frequent False Positives in this file") && !is_active_usage then
        "False Positive"
      else if (rotation_status == "Active/Valid") && is_active_usage then "Confirmed"
      else if (rotation_status == "Active/Valid") && is_high_criticality && is_public then "Confirmed"
      else if rotation_status == "Active/Valid" then "Open"
      else "Open"

/-- The per-ticket loop body of `validate_dataset` with explicit dict
subscripts: any missing key raises, aborting the whole run with the
un-annotated `KeyError` — no line number is attached before propagation. -/
def validateGo (r : ValidationResults) (n : Nat) :
    List RawTicket → Except PyError ValidationResults
  | [] => Except.ok r
  | t :: ts => do
    let r1 := { r with total := r.total + 1 }
    let d ← getKey t.data "data"
    let expected_label ← apply_decision_logic d
    let actual_label ← getKey t.label "label"
    if strLower expected_label == strLower actual_label then
      validateGo
        { r1 with
          matches' := r1.matches' + 1
          by_label := fun l =>
            if l == actual_label then ((r1.by_label l).1 + 1, (r1.by_label l).2)
            else r1.by_label l }
        (n + 1) ts
    else do
      let tid ← getKey t.ticket_id "ticket_id"
      let inv ← getKey d.investigation "investigation"
      let rotation_status ← getKey inv.rotation_status "rotation_status"
      let rd ← getKey d.repo_details "repo_details"
      let repo_type ← getKey rd.type "type"
      let usage ← getKey inv.usage_evidence "usage_evidence"
      let criticality ← getKey rd.criticality "criticality"
      let past_incidents ← getKey inv.similar_past_incidents "similar_past_incidents"
      validateGo
        { r1 with
          mismatches := r1.mismatches ++
            [{ line := n, ticket_id := tid, expected := expected_label,
               actual := actual_label, rotation_status := rotation_status,
               repo_type := repo_type, usage := usage, criticality := criticality,
               past_incidents := past_incidents }]
          by_label := fun l =>
            if l == actual_label then ((r1.by_label l).1, (r1.by_label l).2 + 1)
            else r1.by_label l }
        (n + 1) ts

/-- `validate_dataset` from `validate_tickets.py` on raw records: the
result of the run, or the first uncaught `KeyError`. -/
def validate_dataset (corpus : List RawTicket) : Except PyError ValidationResults :=
  validateGo initialResults 1 corpus

end Raw

/-- A concrete well-formed ticket whose recorded label equals the
engine's: an Active/Valid credential in internal tooling, labeled
Open. -/
def sampleGoodTicket : Ticket :=
  { ticket_id := "SEC-10001"
    data :=
      { category := "Generic API Key", repoType := "Internal Tooling",
        exposure := "Private (Internal)", criticality := "Low (P3 - Sandbox)",
        detectionSource := "TruffleHog Scan", commitAge := "Fresh (< 24h)",
        usageEvidence := "No usage found (90d+)", rotationStatus := "Active/Valid",
        impactRadius := "Single Service", similarPastIncidents := "None found" }
    label := "Open"
    ideal_llm_comment := "" }

/-- The same ticket with its recorded label flipped to a different
canonical label. -/
def sampleFlippedTicket : Ticket :=
  { sampleGoodTicket with label := "Confirmed" }

/-- A raw corpus record missing the required `rotation_status` key (every
other accessed key present). -/
def rawMissingRotation : RawTicket :=
  { ticket_id := some "SEC-20002"
    data := some
      { repo_details := some
          { type := some "Prod Microservice"
            exposure := some "Public (Open Source)"
            criticality := some "Critical (P0 - Customer Data)" }
        investigation := some
          { usage_evidence := some "Active usage in CloudTrail/Logs (Last 1h)"
            rotation_status := none
            impact_radius := some "Multiple Services"
            similar_past_incidents := some "None found" } }
    label := some "Confirmed" }

/-- A concrete fact bundle labeled Open on which the two comment
synthesizers pick identical reasoning clauses, isolating their section
separators. -/
def layoutBundle : FactBundle :=
  { category := "AWS Secret Access Key", repoType := "Prod Microservice",
    exposure := "Private (Internal)", criticality := "High (P1 - Financial)",
    detectionSource := "TruffleHog Scan", commitAge := "Fresh (< 24h)",
    usageEvidence := "No usage found (90d+)", rotationStatus := "Active/Valid",
    impactRadius := "Single Service", similarPastIncidents := "None found" }

example : ValidateTickets.apply_decision_logic
    { category := "AWS Secret Access Key", repoType := "Prod Microservice",
      exposure := "Public (Open Source)", criticality := "Critical (P0 - Customer Data)",
      detectionSource := "TruffleHog Scan", commitAge := "Fresh (< 24h)",
      usageEvidence := "Active usage in CloudTrail/Logs (Last 1h)",
      rotationStatus := "Active/Valid", impactRadius := "Single Service",
      similarPastIncidents := "None found" } = "Confirmed" := by decide

example : ValidateTickets.apply_decision_logic
    { category := "AWS Secret Access Key", repoType := "Prod Microservice",
      exposure := "Public (Open Source)", criticality := "Critical (P0 - Customer Data)",
      detectionSource := "TruffleHog Scan", commitAge := "Fresh (< 24h)",
      usageEvidence := "Active usage in CloudTrail/Logs (Last 1h)",
      rotationStatus := "Already Rotated", impactRadius := "Single Service",
      similarPastIncidents := "None found" } = "Mitigated" := by decide

example : ValidateTickets.apply_decision_logic
    { category := "Generic API Key", repoType := "Test/QA Suite",
      exposure := "Private (Internal)", criticality := "Low (P3 - Sandbox)",
      detectionSource := "TruffleHog Scan", commitAge := "Fresh (< 24h)",
      usageEvidence := "No usage found (90d+)",
      rotationStatus := "Active/Valid", impactRadius := "Single Service",
      similarPastIncidents := "Frequent False Positives in this file" } = "False Positive" := by
  decide

example : ValidateTickets.apply_decision_logic
    { category := "Generic API Key", repoType := "Internal Tooling",
      exposure := "Private (Internal)", criticality := "Low (P3 - Sandbox)",
      detectionSource := "TruffleHog Scan", commitAge := "Fresh (< 24h)",
      usageEvidence := "No usage found (90d+)",
      rotationStatus := "Active/Valid", impactRadius := "Single Service",
      similarPastIncidents := "None found" } = "Open" := by decide

section Helpers

/-- Membership in a two-element string list, as a disjunction of `==`. -/
lemma contains_pair (x a b : String) : ([a, b].contains x) = (x == a || x == b) := by
  cases hx : x == a <;> cases hy : x == b <;>
    simp [List.contains, List.elem, hx, hy]

/-- The engine only ever returns one of the five canonical labels. -/
lemma apply_decision_logic_mem_canonical (b : FactBundle) :
    ValidateTickets.apply_decision_logic b ∈ canonicalLabels := by
  simp only [ValidateTickets.apply_decision_logic, canonicalLabels]
  split_ifs <;> simp

end Helpers

/-- C10: the two copies of the decision engine, `apply_decision_logic` in
`validate_tickets.py` and `apply_decision_logic` in `fix_tickets.py`,
return the same label on every fact bundle. -/
theorem decision_logic_copies_agree :
    ∀ b : FactBundle,
      ValidateTickets.apply_decision_logic b = FixTickets.apply_decision_logic b :=
  fun _ => rfl

/-- C1: the decision engine equals first-match-wins evaluation of the
canonical ordered rule list of spec section 4.1: on every fact bundle the
first of rules 1-8 whose predicate holds supplies the returned label, and
no later rule is consulted. -/
theorem decision_logic_matches_spec_rule_order :
    ∀ b : FactBundle,
      firstMatchLabel specRuleList b = some (ValidateTickets.apply_decision_logic b) := by
  intro b
  simp only [specRuleList, firstMatchLabel, ValidateTickets.apply_decision_logic,
    contains_pair]
  split_ifs <;> rfl

/-- C4: a bundle whose rotation status is "Revoked" or "Already Rotated"
is labeled Mitigated whatever every other field holds. -/
theorem mitigated_precedence (b : FactBundle)
    (h : b.rotationStatus = "Revoked" ∨ b.rotationStatus = "Already Rotated") :
    ValidateTickets.apply_decision_logic b = "Mitigated" := by
  rcases h with h | h <;> simp [ValidateTickets.apply_decision_logic, h]

/-- Witness for C4: an adversarial bundle combining public exposure, P0
criticality and active usage with a revoked credential is still
Mitigated. -/
theorem mitigated_precedence_witness :
    ValidateTickets.apply_decision_logic
      { category := "AWS Secret Access Key", repoType := "Prod Microservice",
        exposure := "Public (Open Source)",
        criticality := "Critical (P0 - Customer Data)",
        detectionSource := "TruffleHog Scan", commitAge := "Fresh (< 24h)",
        usageEvidence := "Active usage in CloudTrail/Logs (Last 1h)",
        rotationStatus := "Revoked", impactRadius := "Multiple Services",
        similarPastIncidents := "None found" } = "Mitigated" :=
  mitigated_precedence _ (Or.inl rfl)

/-- C5: a bundle whose repo type contains "Deprecated" or "Archived", and
whose rotation status triggers neither rule 1 nor rule 2, is labeled
Suppressed — also when the credential is Active/Valid and in active
use. -/
theorem archival_dominance (b : FactBundle)
    (harch : strContains b.repoType "Deprecated" = true ∨
      strContains b.repoType "Archived" = true)
    (h1 : b.rotationStatus ≠ "Revoked") (h2 : b.rotationStatus ≠ "Already Rotated")
    (h3 : b.rotationStatus ≠ "Invalid") :
    ValidateTickets.apply_decision_logic b = "Suppressed" := by
  rcases harch with h | h <;>
    simp [ValidateTickets.apply_decision_logic, h, h1, h2, h3]

/-- Witness for C5: an archived repo with an Active/Valid credential in
active use is Suppressed. -/
theorem archival_dominance_witness :
    strContains "Deprecated/Archived" "Deprecated" = true ∧
    ValidateTickets.apply_decision_logic
      { category := "Database Connection String", repoType := "Deprecated/Archived",
        exposure := "Public (Open Source)",
        criticality := "Critical (P0 - Customer Data)",
        detectionSource := "TruffleHog Scan", commitAge := "Fresh (< 24h)",
        usageEvidence := "Active usage in CloudTrail/Logs (Last 1h)",
        rotationStatus := "Active/Valid", impactRadius := "Multiple Services",
        similarPastIncidents := "None found" } = "Suppressed" :=
  ⟨by decide,
   archival_dominance _ (Or.inl (by decide)) (by decide) (by decide) (by decide)⟩

/-- Counterexample to C6: a Test/QA Suite bundle with frequent-FP history
and active usage whose rotation status is "Invalid" is labeled
False Positive (by the Invalid rule), not Confirmed — the claim's
conclusion fails without the Active/Valid premise. -/
theorem test_suite_guard_counterexample :
    ValidateTickets.apply_decision_logic
      { category := "Generic API Key", repoType := "Test/QA Suite",
        exposure := "Private (Internal)", criticality := "Low (P3 - Sandbox)",
        detectionSource := "TruffleHog Scan", commitAge := "Fresh (< 24h)",
        usageEvidence := "Active usage in CloudTrail/Logs (Last 1h)",
        rotationStatus := "Invalid", impactRadius := "Single Service",
        similarPastIncidents := "Frequent False Positives in this file" } =
      "False Positive" ∧
    ValidateTickets.apply_decision_logic
      { category := "Generic API Key", repoType := "Test/QA Suite",
        exposure := "Private (Internal)", criticality := "Low (P3 - Sandbox)",
        detectionSource := "TruffleHog Scan", commitAge := "Fresh (< 24h)",
        usageEvidence := "Active usage in CloudTrail/Logs (Last 1h)",
        rotationStatus := "Invalid", impactRadius := "Single Service",
        similarPastIncidents := "Frequent False Positives in this file" } ≠
      "Confirmed" := by
  constructor
  · decide
  · decide

/-- C6 as amended: for an Active/Valid bundle with repo type exactly
"Test/QA Suite", frequent-FP history, and usage evidence indicating
active usage, rule 4's active-usage guard blocks the False Positive
outcome and rule 5 labels the bundle Confirmed. -/
theorem test_suite_guard_amended (b : FactBundle)
    (hrepo : b.repoType = "Test/QA Suite")
    (hfp : b.similarPastIncidents = "Frequent False Positives in this file")
    (husage : strContains b.usageEvidence "Active usage" = true)
    (hrot : b.rotationStatus = "Active/Valid") :
    ValidateTickets.apply_decision_logic b = "Confirmed" ∧
    ValidateTickets.apply_decision_logic b ≠ "False Positive" := by
  have hval : ValidateTickets.apply_decision_logic b = "Confirmed" := by
    simp [ValidateTickets.apply_decision_logic, hrepo, hfp, husage, hrot]
    decide
  exact ⟨hval, by rw [hval]; decide⟩

/-- Witness for the amended C6: a concrete Active/Valid Test/QA bundle
with FP history and active usage is Confirmed. -/
theorem test_suite_guard_amended_witness :
    ValidateTickets.apply_decision_logic
      { category := "Generic API Key", repoType := "Test/QA Suite",
        exposure := "Private (Internal)", criticality := "Low (P3 - Sandbox)",
        detectionSource := "TruffleHog Scan", commitAge := "Fresh (< 24h)",
        usageEvidence := "Active usage in CloudTrail/Logs (Last 1h)",
        rotationStatus := "Active/Valid", impactRadius := "Single Service",
        similarPastIncidents := "Frequent False Positives in this file" } =
      "Confirmed" :=
  (test_suite_guard_amended _ rfl rfl (by decide) rfl).1

/-- C7: the engine is total — every bundle receives exactly one of the
five canonical labels — and any bundle matched by none of rules 1-7 (in
particular one with an unrecognized rotation status) falls back to
Open. -/
theorem evaluate_totality_and_fallback :
    ∀ b : FactBundle,
      ValidateTickets.apply_decision_logic b ∈ canonicalLabels ∧
      ((b.rotationStatus ≠ "Revoked" ∧ b.rotationStatus ≠ "Already Rotated" ∧
        b.rotationStatus ≠ "Invalid" ∧ b.rotationStatus ≠ "Active/Valid" ∧
        strContains b.repoType "Deprecated" = false ∧
        strContains b.repoType "Archived" = false ∧
        ¬(b.repoType = "Test/QA Suite" ∧
          b.similarPastIncidents = "Frequent False Positives in this file" ∧
          strContains b.usageEvidence "Active usage" = false)) →
        ValidateTickets.apply_decision_logic b = "Open") := by
  intro b
  refine ⟨apply_decision_logic_mem_canonical b, ?_⟩
  rintro ⟨h1, h2, h3, h4, h5, h6, h7⟩
  simp [ValidateTickets.apply_decision_logic, h1, h2, h3, h4, h5, h6, h7]
  intro ha hb
  cases hz : strContains b.usageEvidence "Active usage" with
  | false => exact absurd ⟨ha, hb, hz⟩ h7
  | true => rfl

/-- Witness for C7: a bundle with the unrecognized rotation status
"Pending Review" is labeled, and labeled Open. -/
theorem evaluate_totality_and_fallback_witness :
    ValidateTickets.apply_decision_logic
      { category := "Generic API Key", repoType := "Internal Tooling",
        exposure := "Private (Internal)", criticality := "Low (P3 - Sandbox)",
        detectionSource := "TruffleHog Scan", commitAge := "Fresh (< 24h)",
        usageEvidence := "No usage found (90d+)",
        rotationStatus := "Pending Review", impactRadius := "Single Service",
        similarPastIncidents := "None found" } ∈ canonicalLabels ∧
    ValidateTickets.apply_decision_logic
      { category := "Generic API Key", repoType := "Internal Tooling",
        exposure := "Private (Internal)", criticality := "Low (P3 - Sandbox)",
        detectionSource := "TruffleHog Scan", commitAge := "Fresh (< 24h)",
        usageEvidence := "No usage found (90d+)",
        rotationStatus := "Pending Review", impactRadius := "Single Service",
        similarPastIncidents := "None found" } = "Open" := by
  have h := evaluate_totality_and_fallback
    { category := "Generic API Key", repoType := "Internal Tooling",
      exposure := "Private (Internal)", criticality := "Low (P3 - Sandbox)",
      detectionSource := "TruffleHog Scan", commitAge := "Fresh (< 24h)",
      usageEvidence := "No usage found (90d+)",
      rotationStatus := "Pending Review", impactRadius := "Single Service",
      similarPastIncidents := "None found" }
  exact ⟨h.1, h.2 (by decide)⟩

section ValidatorHelpers

open ValidateTickets

/-- A ticket that compares equal case-insensitively bumps `total` and
`matches'` and leaves the mismatch list alone. -/
lemma validateStep_eq_match (r : ValidationResults) (n : Nat) (t : Ticket)
    (h : (strLower (apply_decision_logic t.data) == strLower t.label) = true) :
    (validateStep r n t).total = r.total + 1 ∧
    (validateStep r n t).matches' = r.matches' + 1 ∧
    (validateStep r n t).mismatches = r.mismatches := by
  unfold validateStep
  simp [h]

/-- A ticket that compares different case-insensitively bumps `total` and
appends one mismatch entry. -/
lemma validateStep_eq_mismatch (r : ValidationResults) (n : Nat) (t : Ticket)
    (h : (strLower (apply_decision_logic t.data) == strLower t.label) = false) :
    (validateStep r n t).total = r.total + 1 ∧
    (validateStep r n t).matches' = r.matches' ∧
    (validateStep r n t).mismatches =
      r.mismatches ++ [mkMismatch n t (apply_decision_logic t.data) t.label] := by
  unfold validateStep
  simp [h]

/-- Full characterization of the validator fold: totals count the corpus,
matches count the case-insensitively agreeing tickets, and the mismatch
list is the in-order enumeration of the disagreeing tickets. -/
lemma validateGo_characterization :
    ∀ (ts : List Ticket) (r : ValidationResults) (n : Nat),
      (validateGo r n ts).total = r.total + ts.length ∧
      (validateGo r n ts).matches' = r.matches' +
        (ts.filter
          (fun t => strLower (apply_decision_logic t.data) == strLower t.label)).length ∧
      (validateGo r n ts).mismatches = r.mismatches ++
        ((enumFrom n ts).filter
          (fun p => !(strLower (apply_decision_logic p.2.data) == strLower p.2.label))).map
          (fun p => mkMismatch p.1 p.2 (apply_decision_logic p.2.data) p.2.label) := by
  intro ts
  induction ts with
  | nil => intro r n; simp [validateGo, enumFrom]
  | cons t ts ih =>
    intro r n
    have hrec := ih (validateStep r n t) (n + 1)
    obtain ⟨ih1, ih2, ih3⟩ := hrec
    cases h : (strLower (apply_decision_logic t.data) == strLower t.label) with
    | true =>
      obtain ⟨s1, s2, s3⟩ := validateStep_eq_match r n t h
      refine ⟨?_, ?_, ?_⟩
      · show (validateGo (validateStep r n t) (n + 1) ts).total = _
        rw [ih1, s1]; simp only [List.length_cons]; omega
      · show (validateGo (validateStep r n t) (n + 1) ts).matches' = _
        rw [ih2, s2]
        simp [List.filter_cons, h, Nat.add_assoc, Nat.add_comm]
      · show (validateGo (validateStep r n t) (n + 1) ts).mismatches = _
        rw [ih3, s3]
        simp [enumFrom, List.filter_cons, h]
    | false =>
      obtain ⟨s1, s2, s3⟩ := validateStep_eq_mismatch r n t h
      refine ⟨?_, ?_, ?_⟩
      · show (validateGo (validateStep r n t) (n + 1) ts).total = _
        rw [ih1, s1]; simp only [List.length_cons]; omega
      · show (validateGo (validateStep r n t) (n + 1) ts).matches' = _
        rw [ih2, s2]
        simp [List.filter_cons, h]
      · show (validateGo (validateStep r n t) (n + 1) ts).mismatches = _
        rw [ih3, s3]
        simp [enumFrom, List.filter_cons, h]

/-- If every recorded label literally equals the recomputed label, the
case-insensitive filter keeps the whole corpus. -/
lemma filter_all_correct (ts : List Ticket)
    (h : ∀ u ∈ ts, u.label = apply_decision_logic u.data) :
    ts.filter
      (fun t => strLower (apply_decision_logic t.data) == strLower t.label) = ts := by
  apply List.filter_eq_self.mpr
  intro u hu
  rw [h u hu]
  simp

/-- The second component of anything enumerated out of a list is a member
of that list. -/
lemma enumFrom_mem {α : Type} :
    ∀ (ts : List α) (n : Nat) (p : Nat × α), p ∈ enumFrom n ts → p.2 ∈ ts := by
  intro ts
  induction ts with
  | nil => intro n p hp; simp [enumFrom] at hp
  | cons x xs ih =>
    intro n p hp
    rcases hp with _ | hp
    · simp
    · exact List.mem_cons_of_mem _ (ih (n + 1) p (by assumption))

/-- On an all-correct segment the mismatch filter keeps nothing. -/
lemma filter_none_correct (ts : List Ticket) (n : Nat)
    (h : ∀ u ∈ ts, u.label = apply_decision_logic u.data) :
    (enumFrom n ts).filter
      (fun p => !(strLower (apply_decision_logic p.2.data) == strLower p.2.label)) = [] := by
  apply List.filter_eq_nil_iff.mpr
  intro p hp
  rw [h p.2 (enumFrom_mem ts n p hp)]
  simp

/-- Enumeration distributes over append, shifting the start index. -/
lemma enumFrom_append {α : Type} :
    ∀ (xs ys : List α) (n : Nat),
      enumFrom n (xs ++ ys) = enumFrom n xs ++ enumFrom (n + xs.length) ys := by
  intro xs
  induction xs with
  | nil => intro ys n; simp [enumFrom]
  | cons x xs ih =>
    intro ys n
    have harith : n + 1 + xs.length = n + (xs.length + 1) := by omega
    simp [enumFrom, ih ys (n + 1), harith]

/-- Distinct canonical labels stay distinct after lower-casing. -/
lemma canonical_strLower_inj :
    ∀ x ∈ canonicalLabels, ∀ y ∈ canonicalLabels, strLower x = strLower y → x = y := by
  decide

end ValidatorHelpers

/-- C3: the validator compares recomputed against recorded labels
case-insensitively, and its mismatch list is exactly the in-corpus-order
enumeration (1-based line numbers) of the disagreeing tickets, each entry
carrying line, ticket id, expected, actual, rotation status, repo type,
usage evidence, criticality and past-incidents flag; matches count the
case-insensitive agreements and total counts the corpus. -/
theorem validator_mismatch_characterization :
    ∀ corpus : List Ticket,
      (ValidateTickets.validate_dataset corpus).mismatches =
        ((enumFrom 1 corpus).filter
          (fun p => !(strLower (ValidateTickets.apply_decision_logic p.2.data) ==
            strLower p.2.label))).map
          (fun p => ValidateTickets.mkMismatch p.1 p.2
            (ValidateTickets.apply_decision_logic p.2.data) p.2.label) ∧
      (ValidateTickets.validate_dataset corpus).matches' =
        (corpus.filter
          (fun t => strLower (ValidateTickets.apply_decision_logic t.data) ==
            strLower t.label)).length ∧
      (ValidateTickets.validate_dataset corpus).total = corpus.length := by
  intro corpus
  obtain ⟨h1, h2, h3⟩ := validateGo_characterization corpus initialResults 1
  exact ⟨by simpa [initialResults] using h3,
         by simpa [initialResults] using h2,
         by simpa [initialResults] using h1⟩

/-- C2: on a corpus whose recorded labels all equal the engine's labels
the validator reports zero mismatches and matches equal to total; and on
a corpus identical except that one record's label is changed to a
different canonical label, it reports exactly one mismatch entry whose
expected field is the engine-computed label and whose actual field is
the recorded label. -/
theorem validator_correctness_clean_and_flipped :
    (∀ corpus : List Ticket,
      (∀ t ∈ corpus, t.label = ValidateTickets.apply_decision_logic t.data) →
        (ValidateTickets.validate_dataset corpus).mismatches = [] ∧
        (ValidateTickets.validate_dataset corpus).matches' =
          (ValidateTickets.validate_dataset corpus).total) ∧
    (∀ (pre : List Ticket) (t : Ticket) (post : List Ticket),
      (∀ u ∈ pre, u.label = ValidateTickets.apply_decision_logic u.data) →
      (∀ u ∈ post, u.label = ValidateTickets.apply_decision_logic u.data) →
      t.label ∈ canonicalLabels →
      t.label ≠ ValidateTickets.apply_decision_logic t.data →
        (ValidateTickets.validate_dataset (pre ++ t :: post)).mismatches =
          [ValidateTickets.mkMismatch (pre.length + 1) t
            (ValidateTickets.apply_decision_logic t.data) t.label] ∧
        (ValidateTickets.mkMismatch (pre.length + 1) t
          (ValidateTickets.apply_decision_logic t.data) t.label).expected =
          ValidateTickets.apply_decision_logic t.data ∧
        (ValidateTickets.mkMismatch (pre.length + 1) t
          (ValidateTickets.apply_decision_logic t.data) t.label).actual = t.label) := by
  constructor
  · intro corpus hall
    obtain ⟨h1, h2, h3⟩ := validateGo_characterization corpus initialResults 1
    refine ⟨?_, ?_⟩
    · rw [show (ValidateTickets.validate_dataset corpus).mismatches =
        (ValidateTickets.validateGo initialResults 1 corpus).mismatches from rfl, h3,
        filter_none_correct corpus 1 hall]
      simp [initialResults]
    · rw [show (ValidateTickets.validate_dataset corpus).matches' =
        (ValidateTickets.validateGo initialResults 1 corpus).matches' from rfl, h2,
        show (ValidateTickets.validate_dataset corpus).total =
        (ValidateTickets.validateGo initialResults 1 corpus).total from rfl, h1,
        filter_all_correct corpus hall]
      simp [initialResults]
  · intro pre t post hpre hpost hmem hne
    have hflip : (strLower (ValidateTickets.apply_decision_logic t.data) ==
        strLower t.label) = false := by
      apply beq_eq_false_iff_ne.mpr
      intro hc
      exact hne (canonical_strLower_inj t.label hmem
        (ValidateTickets.apply_decision_logic t.data)
        (apply_decision_logic_mem_canonical t.data) hc.symm)
    obtain ⟨h1, h2, h3⟩ :=
      validateGo_characterization (pre ++ t :: post) initialResults 1
    refine ⟨?_, rfl, rfl⟩
    rw [show (ValidateTickets.validate_dataset (pre ++ t :: post)).mismatches =
      (ValidateTickets.validateGo initialResults 1 (pre ++ t :: post)).mismatches from rfl,
      h3, enumFrom_append pre (t :: post) 1]
    rw [List.filter_append, filter_none_correct pre 1 hpre]
    have hcons : enumFrom (1 + pre.length) (t :: post) =
        (1 + pre.length, t) :: enumFrom (1 + pre.length + 1) post := rfl
    rw [hcons, List.filter_cons]
    simp only [hflip, Bool.not_false, if_true]
    rw [filter_none_correct post (1 + pre.length + 1) hpost]
    simp [initialResults, Nat.add_comm]

/-- Witness for C2: a one-ticket correctly-labeled corpus validates with
no mismatches and full accuracy; flipping that ticket's label to
Confirmed yields exactly one mismatch with expected Open and actual
Confirmed. -/
theorem validator_correctness_witness :
    ((ValidateTickets.validate_dataset [sampleGoodTicket]).mismatches = [] ∧
     (ValidateTickets.validate_dataset [sampleGoodTicket]).matches' =
       (ValidateTickets.validate_dataset [sampleGoodTicket]).total) ∧
    ((ValidateTickets.validate_dataset [sampleFlippedTicket]).mismatches =
       [ValidateTickets.mkMismatch 1 sampleFlippedTicket "Open" "Confirmed"] ∧
     (ValidateTickets.mkMismatch 1 sampleFlippedTicket "Open" "Confirmed").expected =
       "Open" ∧
     (ValidateTickets.mkMismatch 1 sampleFlippedTicket "Open" "Confirmed").actual =
       "Confirmed") := by
  constructor
  · exact validator_correctness_clean_and_flipped.1 [sampleGoodTicket] (by decide)
  · have h := validator_correctness_clean_and_flipped.2 [] sampleFlippedTicket []
      (by simp) (by simp) (by decide) (by decide)
    simpa using h

section RawHelpers

/-- Bind on a successful `Except` continues with the value. -/
lemma except_ok_bind {α β : Type} (v : α) (f : α → Except PyError β) :
    (Except.ok v >>= f) = f v := rfl

/-- Bind on a failed `Except` propagates the error. -/
lemma except_error_bind {α β : Type} (e : PyError) (f : α → Except PyError β) :
    ((Except.error e : Except PyError α) >>= f) = Except.error e := rfl

/-- On a fully present record the raw engine succeeds with exactly the
label of the pure engine. -/
lemma raw_apply_toRaw (t : Ticket) :
    Raw.apply_decision_logic
      { repo_details := some
          { type := some t.data.repoType, exposure := some t.data.exposure,
            criticality := some t.data.criticality }
        investigation := some
          { usage_evidence := some t.data.usageEvidence,
            rotation_status := some t.data.rotationStatus,
            impact_radius := some t.data.impactRadius,
            similar_past_incidents := some t.data.similarPastIncidents } } =
      Except.ok (ValidateTickets.apply_decision_logic t.data) := rfl

/-- One raw step on a fully present record is the pure step. -/
lemma raw_validateGo_toRaw_step (r : ValidationResults) (n : Nat) (t : Ticket)
    (ts : List RawTicket) :
    Raw.validateGo r n (Ticket.toRaw t :: ts) =
      Raw.validateGo (ValidateTickets.validateStep r n t) (n + 1) ts := by
  cases h : (strLower (ValidateTickets.apply_decision_logic t.data) ==
      strLower t.label) with
  | true =>
    simp only [Raw.validateGo, Ticket.toRaw, getKey, except_ok_bind, raw_apply_toRaw,
      ValidateTickets.validateStep, h, if_true]
  | false =>
    simp only [Raw.validateGo, Ticket.toRaw, getKey, except_ok_bind, raw_apply_toRaw,
      ValidateTickets.validateStep, ValidateTickets.mkMismatch, h,
      Bool.false_eq_true, if_false]

/-- The raw validator walks a fully present prefix exactly as the pure
validator does. -/
lemma raw_validateGo_toRaw_segment :
    ∀ (pre : List Ticket) (r : ValidationResults) (n : Nat) (rest : List RawTicket),
      Raw.validateGo r n (pre.map Ticket.toRaw ++ rest) =
        Raw.validateGo (ValidateTickets.validateGo r n pre) (n + pre.length) rest := by
  intro pre
  induction pre with
  | nil => intro r n rest; simp [ValidateTickets.validateGo]
  | cons t pre ih =>
    intro r n rest
    have harith : n + 1 + pre.length = n + (pre.length + 1) := by omega
    calc Raw.validateGo r n (Ticket.toRaw t :: (pre.map Ticket.toRaw ++ rest))
        = Raw.validateGo (ValidateTickets.validateStep r n t) (n + 1)
            (pre.map Ticket.toRaw ++ rest) := raw_validateGo_toRaw_step r n t _
      _ = Raw.validateGo
            (ValidateTickets.validateGo (ValidateTickets.validateStep r n t) (n + 1) pre)
            (n + 1 + pre.length) rest := ih _ _ _
      _ = Raw.validateGo (ValidateTickets.validateGo r n (t :: pre))
            (n + (t :: pre).length) rest := by
            rw [harith]; rfl

/-- A record with `rotation_status` absent aborts the run with the bare
`KeyError "rotation_status"`, whatever the line number and whatever
follows. -/
lemma raw_validateGo_missing_rotation (r : ValidationResults) (n : Nat)
    (bad : RawTicket) (rest : List RawTicket) (d : RawData) (inv : RawInvestigation)
    (hd : bad.data = some d) (hinv : d.investigation = some inv)
    (hrot : inv.rotation_status = none) :
    Raw.validateGo r n (bad :: rest) =
      Except.error (PyError.keyError "rotation_status") := by
  simp only [Raw.validateGo, hd, getKey, except_ok_bind, Raw.apply_decision_logic,
    hinv, hrot, except_error_bind]

end RawHelpers

/-- C8 as amended: with a record missing the required `rotation_status`
field anywhere after a well-formed prefix, the validator aborts the run:
no defaulting of the missing fact takes place, and the surfaced error is
the bare `KeyError` naming the missing key — it carries no line/index. -/
theorem missing_field_aborts_run (pre : List Ticket) (bad : RawTicket)
    (rest : List RawTicket) (d : RawData) (inv : RawInvestigation)
    (hd : bad.data = some d) (hinv : d.investigation = some inv)
    (hrot : inv.rotation_status = none) :
    Raw.validate_dataset (pre.map Ticket.toRaw ++ bad :: rest) =
      Except.error (PyError.keyError "rotation_status") := by
  unfold Raw.validate_dataset
  rw [raw_validateGo_toRaw_segment pre initialResults 1 (bad :: rest)]
  exact raw_validateGo_missing_rotation _ _ bad rest d inv hd hinv hrot

/-- Witness for the amended C8: a concrete corpus of one well-formed
record followed by one record missing `rotation_status` aborts with the
bare KeyError. -/
theorem missing_field_aborts_run_witness :
    Raw.validate_dataset ([sampleGoodTicket].map Ticket.toRaw ++ [rawMissingRotation]) =
      Except.error (PyError.keyError "rotation_status") :=
  missing_field_aborts_run [sampleGoodTicket] rawMissingRotation [] _ _ rfl rfl rfl

/-- Counterexample to C8's position part: the same malformed record at
corpus position 1 and at corpus position 3 surfaces the identical error
value, so the surfaced error cannot carry the offending line/index. -/
theorem missing_field_error_position_counterexample :
    Raw.validate_dataset [rawMissingRotation] =
      Except.error (PyError.keyError "rotation_status") ∧
    Raw.validate_dataset
      [Ticket.toRaw sampleGoodTicket, Ticket.toRaw sampleGoodTicket,
       rawMissingRotation] =
      Except.error (PyError.keyError "rotation_status") ∧
    Raw.validate_dataset [rawMissingRotation] =
      Raw.validate_dataset
        [Ticket.toRaw sampleGoodTicket, Ticket.toRaw sampleGoodTicket,
         rawMissingRotation] :=
  ⟨rfl, rfl, rfl⟩

set_option maxRecDepth 8192 in
/-- C9 (code bug): at a concrete bundle and its engine label Open, where
both synthesizers select identical reasoning clauses,
`generate_ideal_comment` emits the four sections separated by blank
lines as section 6 prescribes, while `generate_comment` emits the same
four sections separated by single newlines (no blank line), so the two
outputs differ. -/
theorem comment_layout_blank_line_divergence :
    GenerateTickets.generate_ideal_comment layoutBundle "Open" =
      "Automated analysis: AWS Secret Access Key detected in Prod Microservice." ++
      "\n\n" ++
      "Context:\n- Usage: No usage found (90d+)\n- Status: Active/Valid\n- Criticality: High (P1 - Financial)\n- Detection Source: TruffleHog Scan" ++
      "\n\n" ++
      "Recommendation: Mark as Open." ++
      "\n\n" ++
      "Reasoning: Valid credential requiring remediation. Credential is still active and has not been rotated. Found in Prod Microservice - prioritize based on High (P1 - Financial). Assign to repository owner for rotation." ∧
    FixTickets.generate_comment layoutBundle "Open" =
      "Automated analysis: AWS Secret Access Key detected in Prod Microservice." ++
      "\n" ++
      "Context:\n- Usage: No usage found (90d+)\n- Status: Active/Valid\n- Criticality: High (P1 - Financial)\n- Detection Source: TruffleHog Scan" ++
      "\n" ++
      "Recommendation: Mark as Open." ++
      "\n" ++
      "Reasoning: Valid credential requiring remediation. Credential is still active and has not been rotated. Found in Prod Microservice - prioritize based on High (P1 - Financial). Assign to repository owner for rotation." ∧
    FixTickets.generate_comment layoutBundle "Open" ≠
      GenerateTickets.generate_ideal_comment layoutBundle "Open" := by
  refine ⟨by decide, by decide, by decide⟩
